import Mathlib

set_option maxHeartbeats 1000000

/- Verification of the RSU mobile surveyor core: the vulnerability-scoring
engine (two variants found in the source) and the offline synchronization
queue. Scores are modelled over the rationals; JavaScript optional values
are modelled with explicit defaulting helpers that follow the truthiness
of the original expressions. -/

namespace RSU

/-- Risk classification levels shared by both scoring variants. -/
inductive RiskLevel where
  | LOW
  | MODERATE
  | HIGH
  | CRITICAL
deriving DecidableEq, Repr

/-- Numeric rank of a risk level, used to state monotonicity of the
threshold classification. -/
def RiskLevel.rank : RiskLevel → Nat
  | .LOW => 0
  | .MODERATE => 1
  | .HIGH => 2
  | .CRITICAL => 3

/-- JavaScript numeric defaulting `x || d`: both an absent value and 0 are
falsy and fall through to the default. -/
def jsOr (x : Option ℚ) (d : ℚ) : ℚ :=
  match x with
  | some v => if v = 0 then d else v
  | none => d

/-- JavaScript `String.prototype.includes`: the pattern occurs in `s` iff
splitting on it produces more than one piece. -/
def strIncludes (s pat : String) : Bool :=
  (s.splitOn pat).length != 1

/-- A JavaScript value as observed by the scoring code: only truthiness and
comparison with the string literal "no" are ever inspected. -/
inductive JsVal where
  | undef
  | bool (b : Bool)
  | num (q : ℚ)
  | str (s : String)
deriving DecidableEq

/-- JavaScript truthiness of a value. -/
def JsVal.truthy : JsVal → Bool
  | .undef => false
  | .bool b => b
  | .num q => decide (q ≠ 0)
  | .str s => decide (s ≠ "")

/-- Strict equality of a JavaScript value with the string literal "no". -/
def JsVal.isNo : JsVal → Bool
  | .str s => s == "no"
  | _ => false

/- ===========================================================================
The four-dimension scoring service (the variant with a configurable
weighting profile, offline local computation and a remote API path).
=========================================================================== -/

namespace FourDim

/-- Person record fields read by the four-dimension scoring algorithms. -/
structure PersonData where
  employment_status : Option String
  education_level : Option String
  gender : Option String
  marital_status : Option String
  disability_status : Option String
  age : Option ℚ
deriving DecidableEq

/-- Household record fields read by the four-dimension scoring algorithms. -/
structure HouseholdData where
  household_size : Option ℚ
  has_disabled_members : Bool
  has_elderly_members : Bool
  has_children_under_5 : Bool
  has_pregnant_women : Bool
  dependency_ratio : Option ℚ
  total_monthly_income : Option ℚ
  housing_type : Option String
deriving DecidableEq

/-- Weighting profile: per-dimension percentage weights. -/
structure WeightingProfile where
  household_composition_weight : ℚ
  economic_vulnerability_weight : ℚ
  social_vulnerability_weight : ℚ
  health_vulnerability_weight : ℚ
deriving DecidableEq

/-- Hardcoded default weighting profile (offline fallback). -/
def DEFAULT_WEIGHTING_PROFILE : WeightingProfile :=
  { household_composition_weight := 30
    economic_vulnerability_weight := 35
    social_vulnerability_weight := 20
    health_vulnerability_weight := 15 }

/-- Risk classification thresholds of the four-dimension variant. -/
def RISK_THRESHOLDS_CRITICAL : ℚ := 80
def RISK_THRESHOLDS_HIGH : ℚ := 60
def RISK_THRESHOLDS_MODERATE : ℚ := 40

/-- Household-composition dimension score (0-100); a missing household
record scores 0. -/
def _calculateHouseholdCompositionScore (householdData : Option HouseholdData) : ℚ :=
  match householdData with
  | none => 0
  | some h =>
    let householdSize := jsOr h.household_size 0
    let sizePts : ℚ :=
      if 10 ≤ householdSize then 30
      else if 7 ≤ householdSize then 25
      else if 5 ≤ householdSize then 20
      else if 3 ≤ householdSize then 10
      else 0
    let vulnPts : ℚ :=
      (if h.has_disabled_members then 15 else 0) +
      (if h.has_elderly_members then 10 else 0) +
      (if h.has_children_under_5 then 10 else 0) +
      (if h.has_pregnant_women then 5 else 0)
    let dependencyRatio := jsOr h.dependency_ratio 0
    let depPts : ℚ :=
      if 2 ≤ dependencyRatio then 30
      else if (3 / 2 : ℚ) ≤ dependencyRatio then 20
      else if 1 ≤ dependencyRatio then 10
      else 0
    min (sizePts + vulnPts + depPts) 100

/-- Economic-vulnerability dimension score (0-100). -/
def _calculateEconomicVulnerabilityScore (personData : PersonData)
    (householdData : Option HouseholdData) : ℚ :=
  let employmentStatus := Option.map String.toUpper personData.employment_status
  let empPts : ℚ :=
    if employmentStatus == some ("UNEMPLOYED") then 40
    else if employmentStatus == some ("INFORMAL") then 30
    else if employmentStatus == some ("TEMPORARY") then 20
    else 0
  let income := jsOr (householdData.bind (fun h => h.total_monthly_income)) 0
  let householdSize := jsOr (householdData.bind (fun h => h.household_size)) 1
  let incomePerPerson := income / householdSize
  let incomePts : ℚ :=
    if incomePerPerson < 50000 then 40
    else if incomePerPerson < 100000 then 30
    else if incomePerPerson < 150000 then 20
    else if incomePerPerson < 200000 then 10
    else 0
  let housingType := householdData.bind (fun h => h.housing_type)
  let housingPts : ℚ :=
    if housingType == some ("PRECARIOUS") || housingType == some ("HOMELESS") then 20
    else if housingType == some ("SHARED") then 10
    else 0
  min (empPts + incomePts + housingPts) 100

/-- Social-vulnerability dimension score (0-100). -/
def _calculateSocialVulnerabilityScore (personData : PersonData) : ℚ :=
  let educationLevel := Option.map String.toUpper personData.education_level
  let eduPts : ℚ :=
    if educationLevel == some ("NONE") then 30
    else if educationLevel == some ("PRIMARY") then 20
    else if educationLevel == some ("SECONDARY") then 10
    else 0
  let genderPts : ℚ :=
    if personData.gender == some ("F") then
      10 + (if personData.marital_status == some ("WIDOWED") ||
              personData.marital_status == some ("DIVORCED") then 10 else 0)
    else 0
  let maritalPts : ℚ :=
    if personData.marital_status == some ("WIDOWED") then 15
    else if personData.marital_status == some ("DIVORCED") ||
            personData.marital_status == some ("SEPARATED") then 10
    else 0
  let disabilityPts : ℚ :=
    if personData.disability_status == some ("YES") then 30
    else if personData.disability_status == some ("PARTIAL") then 15
    else 0
  min (eduPts + genderPts + maritalPts + disabilityPts) 100

/-- Health-vulnerability dimension score (0-100). -/
def _calculateHealthVulnerabilityScore (personData : PersonData)
    (householdData : Option HouseholdData) : ℚ :=
  let disabilityPts : ℚ :=
    if personData.disability_status == some ("YES") then 40
    else if personData.disability_status == some ("PARTIAL") then 20
    else 0
  let age := jsOr personData.age 0
  let agePts : ℚ :=
    if 70 ≤ age then 30
    else if 60 ≤ age then 20
    else if age ≤ 5 then 25
    else 0
  let memberPts : ℚ :=
    if (householdData.map (fun h => h.has_disabled_members)).getD false then 30 else 0
  min (disabilityPts + agePts + memberPts) 100

/-- Risk level from a global score, four-dimension thresholds. -/
def _determineRiskLevel (score : ℚ) : RiskLevel :=
  if RISK_THRESHOLDS_CRITICAL ≤ score then .CRITICAL
  else if RISK_THRESHOLDS_HIGH ≤ score then .HIGH
  else if RISK_THRESHOLDS_MODERATE ≤ score then .MODERATE
  else .LOW

/-- Recommendation codes from the component scores. -/
def _generateRecommendations (totalScore householdScore economicScore socialScore
    healthScore : ℚ) : List String :=
  (if 60 ≤ economicScore then ["CASH_TRANSFER_PROGRAM", "VOCATIONAL_TRAINING"] else []) ++
  (if 50 ≤ healthScore then ["HEALTH_INSURANCE", "DISABILITY_SUPPORT"] else []) ++
  (if 50 ≤ socialScore then ["EDUCATION_SUPPORT", "LITERACY_PROGRAM"] else []) ++
  (if 60 ≤ householdScore then ["HOUSING_ASSISTANCE", "CHILDCARE_SUPPORT"] else []) ++
  (if RISK_THRESHOLDS_CRITICAL ≤ totalScore then
    ["PRIORITY_PROGRAM_ENROLLMENT", "INTENSIVE_CASE_MANAGEMENT"] else [])

/-- The weighted total of the four dimension scores under a profile whose
weights are percentages. -/
def totalScoreOf (weights : WeightingProfile) (householdScore economicScore socialScore
    healthScore : ℚ) : ℚ :=
  householdScore * (weights.household_composition_weight / 100) +
  economicScore * (weights.economic_vulnerability_weight / 100) +
  socialScore * (weights.social_vulnerability_weight / 100) +
  healthScore * (weights.health_vulnerability_weight / 100)

/-- Rounding to two decimal places, as applied by `toFixed(2)` at the output
boundary (exact on rationals; ties round up). -/
def round2 (x : ℚ) : ℚ := (round (100 * x) : ℤ) / 100

/-- Result shape of the local (offline) score computation. -/
structure LocalScoreResult where
  vulnerability_score : ℚ
  risk_level : RiskLevel
  household_composition_score : ℚ
  economic_vulnerability_score : ℚ
  social_vulnerability_score : ℚ
  health_vulnerability_score : ℚ
  recommendations : List String
  calculated_offline : Bool
deriving DecidableEq

/-- The exact (unrounded) weighted global score of the local computation:
the four dimension scores combined under the profile, with no rounding
anywhere in the pipeline. -/
def exactTotalScore (personData : PersonData) (householdData : Option HouseholdData)
    (weights : WeightingProfile) : ℚ :=
  totalScoreOf weights
    (_calculateHouseholdCompositionScore householdData)
    (_calculateEconomicVulnerabilityScore personData householdData)
    (_calculateSocialVulnerabilityScore personData)
    (_calculateHealthVulnerabilityScore personData householdData)

/-- Local (offline) score computation, with the weighting profile the
asynchronous fetch resolved to passed as an argument. -/
def calculateScoreLocally (personData : PersonData) (householdData : Option HouseholdData)
    (weights : WeightingProfile) : LocalScoreResult :=
  let householdScore := _calculateHouseholdCompositionScore householdData
  let economicScore := _calculateEconomicVulnerabilityScore personData householdData
  let socialScore := _calculateSocialVulnerabilityScore personData
  let healthScore := _calculateHealthVulnerabilityScore personData householdData
  let totalScore := totalScoreOf weights householdScore economicScore socialScore healthScore
  let riskLevel := _determineRiskLevel totalScore
  let recommendations :=
    _generateRecommendations totalScore householdScore economicScore socialScore healthScore
  { vulnerability_score := round2 totalScore
    risk_level := riskLevel
    household_composition_score := round2 householdScore
    economic_vulnerability_score := round2 economicScore
    social_vulnerability_score := round2 socialScore
    health_vulnerability_score := round2 healthScore
    recommendations := recommendations
    calculated_offline := true }

/-- Weighting-profile lookup: state is the in-memory cache, the remote fetch
outcome is an oracle (a throw, or a response whose data may be absent).
Returns the profile together with the cache after the call. -/
def getWeightingProfile (cache : Option WeightingProfile)
    (remote : Except Unit (Option WeightingProfile)) :
    WeightingProfile × Option WeightingProfile :=
  match cache with
  | some p => (p, some p)
  | none =>
    match remote with
    | .ok (some d) => (d, some d)
    | .ok none => (DEFAULT_WEIGHTING_PROFILE, none)
    | .error _ => (DEFAULT_WEIGHTING_PROFILE, none)

/-- An assessment payload as cached per person; opaque to the control flow. -/
structure Assessment where
  raw : String
deriving DecidableEq

/-- Result shape of the remote calculation path. -/
structure CalcResult where
  success : Bool
  assessment : Option Assessment
  fromCache : Bool
  error : Option String
deriving DecidableEq

/-- Remote score calculation: the HTTP outcome is an oracle (a thrown error
message, or a response whose data may be absent); the second component is
the per-person cache after the call. -/
def calculateVulnerabilityScoreRemote (remote : Except String (Option Assessment))
    (cache : Option Assessment) : CalcResult × Option Assessment :=
  match remote with
  | .ok (some d) =>
    ({ success := true, assessment := some d, fromCache := false, error := none }, some d)
  | .ok none =>
    ({ success := false, assessment := none, fromCache := false,
       error := some ("Réponse API invalide") }, cache)
  | .error e =>
    match cache with
    | some c =>
      ({ success := true, assessment := some c, fromCache := true, error := none }, cache)
    | none =>
      ({ success := false, assessment := none, fromCache := false, error := some e }, cache)

end FourDim

/- ===========================================================================
The five-dimension scoring service (the variant with fixed weights
economic/housing/health/education/social and thresholds 75/50/25).
=========================================================================== -/

namespace FiveDim

/-- Fixed dimension weights of the five-dimension variant (sum to 100%). -/
def WEIGHTS_economic : ℚ := 0.30
def WEIGHTS_housing : ℚ := 0.25
def WEIGHTS_health : ℚ := 0.20
def WEIGHTS_education : ℚ := 0.15
def WEIGHTS_social : ℚ := 0.10

/-- Risk classification thresholds of the five-dimension variant. -/
def THRESHOLDS_CRITICAL : ℚ := 75
def THRESHOLDS_HIGH : ℚ := 50
def THRESHOLDS_MODERATE : ℚ := 25

/-- A calendar date as decomposed by the age computation. -/
structure Date where
  year : ℤ
  month : ℤ
  day : ℤ
deriving DecidableEq

/-- Age from a birth date relative to the current date; a missing birth date
yields 0. -/
def calculateAge (today : Date) (birthDate : Option Date) : ℤ :=
  match birthDate with
  | none => 0
  | some birth =>
    let age := today.year - birth.year
    let monthDiff := today.month - birth.month
    if monthDiff < 0 ∨ (monthDiff = 0 ∧ today.day < birth.day) then age - 1 else age

/-- Person record fields read by the five-dimension scoring algorithms. -/
structure Person where
  occupationStatus : Option String
  educationLevel : Option String
  isIlliterate : Bool
  hasChronicIllness : Bool
  hasDisability : Bool
  birthDate : Option Date
deriving DecidableEq

/-- Household record fields read by the five-dimension scoring algorithms.
`hasElectricity` and `hasRunningWater` keep the full JavaScript value since
the code also compares them with the string literal "no". -/
structure Household where
  monthlyIncome : Option ℚ
  householdSize : Option ℚ
  dependents : Option ℚ
  hasSavings : Bool
  housingType : Option String
  hasElectricity : JsVal
  hasRunningWater : JsVal
  numberOfRooms : Option ℚ
  hasToilet : Bool
  hasChronicIllness : Bool
  hasDisability : Bool
  hasHealthInsurance : Bool
  hasMalnutrition : Bool
  healthCenterDistance : Option ℚ
  hasUnpaidSchoolFees : Bool
  childrenOutOfSchool : Option ℚ
  isSociallyIsolated : Bool
  isSingleParent : Bool
  hasFamilySupport : Bool
deriving DecidableEq

/-- Economic dimension score (0-100). -/
def calculateEconomicScore (person : Person) (household : Household) : ℚ :=
  let income := jsOr household.monthlyIncome 0
  let householdSize := jsOr household.householdSize 1
  let incomePerPerson := income / householdSize
  let incomePts : ℚ :=
    if incomePerPerson = 0 then 40
    else if incomePerPerson < 150000 then 35
    else if incomePerPerson < 300000 then 25
    else 10
  let occupation := (Option.map String.toLower person.occupationStatus).getD ""
  let occPts : ℚ :=
    if strIncludes occupation ("chomeur") || strIncludes occupation ("unemployed") then 25
    else if strIncludes occupation ("informel") || strIncludes occupation ("informal") then 15
    else if strIncludes occupation ("journalier") || strIncludes occupation ("daily") then 20
    else 5
  let dependents := jsOr household.dependents 0
  let depPts : ℚ :=
    if 5 ≤ dependents then 20
    else if 3 ≤ dependents then 15
    else if 1 ≤ dependents then 10
    else 0
  let savingsPts : ℚ := if !household.hasSavings then 15 else 0
  min 100 (incomePts + occPts + depPts + savingsPts)

/-- Housing dimension score (0-100). -/
def calculateHousingScore (household : Household) : ℚ :=
  let housingType := (Option.map String.toLower household.housingType).getD ""
  let typePts : ℚ :=
    if strIncludes housingType ("precaire") || strIncludes housingType ("precarious") then 30
    else if strIncludes housingType ("case") || strIncludes housingType ("traditional") then 20
    else if strIncludes housingType ("location") || strIncludes housingType ("rent") then 15
    else 5
  let elecPts : ℚ :=
    if !household.hasElectricity.truthy || household.hasElectricity.isNo then 20 else 0
  let waterPts : ℚ :=
    if !household.hasRunningWater.truthy || household.hasRunningWater.isNo then 20 else 0
  let householdSize := jsOr household.householdSize 1
  let rooms := jsOr household.numberOfRooms 1
  let personsPerRoom := householdSize / rooms
  let crowdPts : ℚ :=
    if 4 ≤ personsPerRoom then 15
    else if 3 ≤ personsPerRoom then 10
    else if 2 ≤ personsPerRoom then 5
    else 0
  let toiletPts : ℚ := if !household.hasToilet then 15 else 0
  min 100 (typePts + elecPts + waterPts + crowdPts + toiletPts)

/-- Health dimension score (0-100). -/
def calculateHealthScore (person : Person) (household : Household) : ℚ :=
  let chronicPts : ℚ := if person.hasChronicIllness || household.hasChronicIllness then 25 else 0
  let disabilityPts : ℚ := if person.hasDisability || household.hasDisability then 20 else 0
  let insurancePts : ℚ := if !household.hasHealthInsurance then 20 else 0
  let malnutritionPts : ℚ := if household.hasMalnutrition then 20 else 0
  let healthDistance := jsOr household.healthCenterDistance 0
  let distPts : ℚ :=
    if 10 ≤ healthDistance then 15
    else if 5 ≤ healthDistance then 10
    else 0
  min 100 (chronicPts + disabilityPts + insurancePts + malnutritionPts + distPts)

/-- Education dimension score (0-100). -/
def calculateEducationScore (person : Person) (household : Household) : ℚ :=
  let education := (Option.map String.toLower person.educationLevel).getD ""
  let eduPts : ℚ :=
    if strIncludes education ("aucun") || strIncludes education ("none") then 30
    else if strIncludes education ("primaire") || strIncludes education ("primary") then 20
    else if strIncludes education ("secondaire") || strIncludes education ("secondary") then 10
    else 0
  let illitPts : ℚ := if person.isIlliterate then 25 else 0
  let childrenOutOfSchool := jsOr household.childrenOutOfSchool 0
  let childPts : ℚ :=
    if 2 ≤ childrenOutOfSchool then 25
    else if childrenOutOfSchool = 1 then 15
    else 0
  let feesPts : ℚ := if household.hasUnpaidSchoolFees then 20 else 0
  min 100 (eduPts + illitPts + childPts + feesPts)

/-- Social dimension score. The source reads a variable `householdSize` that
is not defined in this function scope; in JavaScript this raises a
ReferenceError, reached exactly when the computed age is at least 65 (the
conjunction short-circuits otherwise). The raise is modelled as `Except.error`. -/
def calculateSocialScore (today : Date) (person : Person) (household : Household) :
    Except String ℚ :=
  let isoPts : ℚ := if household.isSociallyIsolated then 30 else 0
  let singlePts : ℚ := if household.isSingleParent then 25 else 0
  let age := calculateAge today person.birthDate
  if 65 ≤ age then .error ("ReferenceError: householdSize is not defined")
  else
    let supportPts : ℚ := if !household.hasFamilySupport then 20 else 0
    .ok (min 100 (isoPts + singlePts + supportPts))

/-- The five dimension scores. -/
structure DimensionScores where
  economic : ℚ
  housing : ℚ
  health : ℚ
  education : ℚ
  social : ℚ
deriving DecidableEq

/-- All five dimension scores; propagates the social-score error. -/
def calculateDimensionScores (today : Date) (personData : Person)
    (householdData : Household) : Except String DimensionScores :=
  match calculateSocialScore today personData householdData with
  | .error e => .error e
  | .ok social =>
    .ok { economic := calculateEconomicScore personData householdData
          housing := calculateHousingScore householdData
          health := calculateHealthScore personData householdData
          education := calculateEducationScore personData householdData
          social := social }

/-- Weighted global score from the five dimension scores. -/
def calculateWeightedScore (dimensionScores : DimensionScores) : ℚ :=
  dimensionScores.economic * WEIGHTS_economic +
  dimensionScores.housing * WEIGHTS_housing +
  dimensionScores.health * WEIGHTS_health +
  dimensionScores.education * WEIGHTS_education +
  dimensionScores.social * WEIGHTS_social

/-- Risk level from a global score, five-dimension thresholds. -/
def determineRiskLevel (score : ℚ) : RiskLevel :=
  if THRESHOLDS_CRITICAL ≤ score then .CRITICAL
  else if THRESHOLDS_HIGH ≤ score then .HIGH
  else if THRESHOLDS_MODERATE ≤ score then .MODERATE
  else .LOW

/-- Risk-factor identification from the raw records. -/
def identifyRiskFactors (person : Person) (household : Household) : List String :=
  (if jsOr household.monthlyIncome 0 < 150000 then ["extreme_poverty"] else []) ++
  (if (Option.map (fun s => strIncludes s ("chomeur")) person.occupationStatus).getD false
    then ["unemployment"] else []) ++
  (if 3 ≤ jsOr household.dependents 0 then ["multiple_dependents"] else []) ++
  (if !household.hasElectricity.truthy then ["no_electricity"] else []) ++
  (if !household.hasRunningWater.truthy then ["no_water"] else []) ++
  (if (Option.map (fun s => strIncludes s ("precaire")) household.housingType).getD false
    then ["precarious_housing"] else []) ++
  (if person.hasChronicIllness then ["chronic_illness"] else []) ++
  (if person.hasDisability then ["disability"] else []) ++
  (if !household.hasHealthInsurance then ["no_health_insurance"] else []) ++
  (if (Option.map (fun s => strIncludes s ("aucun")) person.educationLevel).getD false
    then ["no_education"] else []) ++
  (if 0 < jsOr household.childrenOutOfSchool 0 then ["children_out_of_school"] else []) ++
  (if household.isSingleParent then ["single_parent"] else []) ++
  (if household.isSociallyIsolated then ["social_isolation"] else [])

/-- Recommendations from risk level and identified factors. -/
def generateRecommendations (riskLevel : RiskLevel) (factors : List String) : List String :=
  (match riskLevel with
   | .CRITICAL =>
     ["Priorité 1: Assistance immédiate requise",
      "Inscription urgente aux programmes sociaux",
      "Suivi rapproché mensuel"]
   | .HIGH =>
     ["Priorité 2: Intervention nécessaire",
      "Évaluation approfondie des besoins",
      "Orientation vers programmes adaptés"]
   | .MODERATE =>
     ["Priorité 3: Surveillance régulière",
      "Accès aux services de prévention"]
   | .LOW => ["Suivi standard"]) ++
  (if factors.contains ("unemployment") then ["Programme insertion professionnelle"] else []) ++
  (if factors.contains ("no_education") then ["Programme alphabétisation"] else []) ++
  (if factors.contains ("children_out_of_school") then ["Aide à la scolarisation"] else []) ++
  (if factors.contains ("chronic_illness") then ["Couverture santé prioritaire"] else [])

/-- Result of the five-dimension global computation, timestamp included. -/
structure Result where
  score : ℤ
  level : RiskLevel
  dimensions : DimensionScores
  factors : List String
  recommendations : List String
  calculatedAt : String
deriving DecidableEq

/-- The time-independent fields of a `Result`. -/
structure ResultCore where
  score : ℤ
  level : RiskLevel
  dimensions : DimensionScores
  factors : List String
  recommendations : List String
deriving DecidableEq

/-- Projection dropping the `calculatedAt` field. -/
def Result.core (r : Result) : ResultCore :=
  { score := r.score
    level := r.level
    dimensions := r.dimensions
    factors := r.factors
    recommendations := r.recommendations }

/-- Global five-dimension computation; the catch block replaces any inner
error by a fixed message. `now` is the ISO timestamp the call would record. -/
def calculateVulnerabilityScore (today : Date) (personData : Person)
    (householdData : Household) (now : String) : Except String Result :=
  match calculateDimensionScores today personData householdData with
  | .error _ => .error ("Impossible de calculer le score de vulnérabilité")
  | .ok dimensionScores =>
    let globalScore := calculateWeightedScore dimensionScores
    let riskLevel := determineRiskLevel globalScore
    let riskFactors := identifyRiskFactors personData householdData
    let recommendations := generateRecommendations riskLevel riskFactors
    .ok { score := round globalScore
          level := riskLevel
          dimensions := dimensionScores
          factors := riskFactors
          recommendations := recommendations
          calculatedAt := now }

/-- `calculateVulnerabilityScore` with the timestamp erased from the output. -/
def eraseCalculatedAt (r : Except String Result) : Except String ResultCore :=
  Except.map Result.core r

end FiveDim

/- ===========================================================================
The offline synchronization queue. The sync service source file itself is
not part of the repository snapshot (only its callers are), so the drain
operation is modelled from the specification.
=========================================================================== -/

namespace SyncQueue

/-- Modelled from the spec: queue item status values of the Sync Queue
Manager, whose implementation file (`syncService.js`) is missing from the
source snapshot. -/
inductive Status where
  | PENDING
  | IN_FLIGHT
  | FAILED
  | SYNCED
deriving DecidableEq, Repr

/-- Modelled from the spec: a pending mutation awaiting synchronization
(payload omitted: the queue treats it as opaque). -/
structure QueueItem where
  id : Nat
  createdAt : Nat
  attempts : Nat
  status : Status
deriving DecidableEq, Repr

/-- Modelled from the spec: the drain summary counts. -/
structure Summary where
  synced : Nat
  failed : Nat
  total : Nat
deriving DecidableEq, Repr

/-- Modelled from the spec: `drain()` processes the queue in FIFO order with
a per-item remote outcome oracle; a succeeded item is removed, a failed item
stays with `attempts` incremented and status FAILED, and processing
continues past failures. Returns the remaining queue and the summary. -/
def drain (outcome : QueueItem → Bool) : List QueueItem → List QueueItem × Summary
  | [] => ([], { synced := 0, failed := 0, total := 0 })
  | i :: rest =>
    let r := drain outcome rest
    if outcome i then
      (r.1, { synced := r.2.synced + 1, failed := r.2.failed, total := r.2.total + 1 })
    else
      ({ i with attempts := i.attempts + 1, status := Status.FAILED } :: r.1,
       { synced := r.2.synced, failed := r.2.failed + 1, total := r.2.total + 1 })

end SyncQueue

/- ===========================================================================
The `useOffline` hook: its observable guard conditions for starting a
queue drain.
=========================================================================== -/

namespace UseOffline

/-- The hook state read by the drain triggers: connectivity flags, the
`autoSync` option, the pending-item count and the `syncing` flag. -/
structure HookState where
  isConnected : Bool
  isInternetReachable : Bool
  autoSync : Bool
  pendingCount : Nat
  syncing : Bool
deriving DecidableEq, Repr

/-- Whether a direct `syncQueue()` invocation proceeds past its early return
and starts `processQueue`: it checks connectivity only. -/
def syncQueueStarts (s : HookState) : Bool :=
  s.isConnected && s.isInternetReachable

/-- Whether the automatic-sync effect fires `syncQueue()`: connectivity,
the `autoSync` option, a nonempty queue, and the `syncing` guard flag. -/
def autoSyncTriggers (s : HookState) : Bool :=
  s.isConnected && s.isInternetReachable && s.autoSync &&
    decide (0 < s.pendingCount) && !s.syncing

end UseOffline

/- ===========================================================================
Sample records used to instantiate theorems with hypotheses.
=========================================================================== -/

/-- A fixed current date for age computations. -/
def sampleToday : FiveDim.Date := { year := 2025, month := 6, day := 15 }

/-- A person born in 1950: computed age 75. -/
def samplePerson75 : FiveDim.Person :=
  { occupationStatus := none
    educationLevel := none
    isIlliterate := false
    hasChronicIllness := false
    hasDisability := false
    birthDate := some { year := 1950, month := 1, day := 1 } }

/-- A person born in 1995: computed age 30. -/
def samplePerson30 : FiveDim.Person :=
  { occupationStatus := some ("Chomeur")
    educationLevel := some ("Primaire")
    isIlliterate := true
    hasChronicIllness := true
    hasDisability := false
    birthDate := some { year := 1995, month := 1, day := 1 } }

/-- A household record exercising several risk indicators. -/
def sampleHousehold : FiveDim.Household :=
  { monthlyIncome := some 80000
    householdSize := some 6
    dependents := some 3
    hasSavings := false
    housingType := some ("precaire")
    hasElectricity := JsVal.bool false
    hasRunningWater := JsVal.str ("no")
    numberOfRooms := some 2
    hasToilet := false
    hasChronicIllness := true
    hasDisability := false
    hasHealthInsurance := false
    hasMalnutrition := false
    healthCenterDistance := some 12
    hasUnpaidSchoolFees := true
    childrenOutOfSchool := some 1
    isSociallyIsolated := false
    isSingleParent := true
    hasFamilySupport := true }

/- ===========================================================================
Helper lemmas.
=========================================================================== -/

/-- Clamping from above with `min s 100` stays in `[0, 100]` when the raw sum
is nonnegative. -/
theorem min_right_mem (s : ℚ) (hs : 0 ≤ s) : 0 ≤ min s 100 ∧ min s 100 ≤ 100 :=
  ⟨le_min hs (by norm_num), min_le_right _ _⟩

/-- Clamping from above with `min 100 s` stays in `[0, 100]` when the raw sum
is nonnegative. -/
theorem min_left_mem (s : ℚ) (hs : 0 ≤ s) : 0 ≤ min (100 : ℚ) s ∧ min (100 : ℚ) s ≤ 100 :=
  ⟨le_min (by norm_num) hs, min_le_left _ _⟩

/-- A branch between two nonnegative rationals is nonnegative. -/
theorem ite_nonneg_q (c : Prop) [Decidable c] (a b : ℚ) (ha : 0 ≤ a) (hb : 0 ≤ b) :
    0 ≤ if c then a else b := by
  split_ifs <;> assumption

/- ===========================================================================
Claim theorems.
=========================================================================== -/

/-- C1: for every weighting profile whose weights are nonnegative percentages
summing to 100 and all dimension scores in [0,100], the weighted global
vulnerability score lies in [0,100]; in the five-dimension variant the
weights are the fixed constants 0.30/0.25/0.20/0.15/0.10 (summing to 100%)
and the same bound holds. -/
theorem global_score_in_unit_range :
    (∀ (w : FourDim.WeightingProfile) (hc ec sc hl : ℚ),
      0 ≤ w.household_composition_weight → 0 ≤ w.economic_vulnerability_weight →
      0 ≤ w.social_vulnerability_weight → 0 ≤ w.health_vulnerability_weight →
      w.household_composition_weight + w.economic_vulnerability_weight +
        w.social_vulnerability_weight + w.health_vulnerability_weight = 100 →
      0 ≤ hc → hc ≤ 100 → 0 ≤ ec → ec ≤ 100 → 0 ≤ sc → sc ≤ 100 →
      0 ≤ hl → hl ≤ 100 →
      0 ≤ FourDim.totalScoreOf w hc ec sc hl ∧ FourDim.totalScoreOf w hc ec sc hl ≤ 100) ∧
    (∀ d : FiveDim.DimensionScores,
      0 ≤ d.economic → d.economic ≤ 100 → 0 ≤ d.housing → d.housing ≤ 100 →
      0 ≤ d.health → d.health ≤ 100 → 0 ≤ d.education → d.education ≤ 100 →
      0 ≤ d.social → d.social ≤ 100 →
      0 ≤ FiveDim.calculateWeightedScore d ∧ FiveDim.calculateWeightedScore d ≤ 100) := by
  constructor
  · intro w hc ec sc hl hw1 hw2 hw3 hw4 hsum h1 h2 h3 h4 h5 h6 h7 h8
    unfold FourDim.totalScoreOf
    have d1 := div_nonneg hw1 (by norm_num : (0:ℚ) ≤ 100)
    have d2 := div_nonneg hw2 (by norm_num : (0:ℚ) ≤ 100)
    have d3 := div_nonneg hw3 (by norm_num : (0:ℚ) ≤ 100)
    have d4 := div_nonneg hw4 (by norm_num : (0:ℚ) ≤ 100)
    constructor
    · have p1 := mul_nonneg h1 d1
      have p2 := mul_nonneg h3 d2
      have p3 := mul_nonneg h5 d3
      have p4 := mul_nonneg h7 d4
      linarith
    · have t1 : hc * (w.household_composition_weight / 100) ≤
          100 * (w.household_composition_weight / 100) := mul_le_mul_of_nonneg_right h2 d1
      have t2 : ec * (w.economic_vulnerability_weight / 100) ≤
          100 * (w.economic_vulnerability_weight / 100) := mul_le_mul_of_nonneg_right h4 d2
      have t3 : sc * (w.social_vulnerability_weight / 100) ≤
          100 * (w.social_vulnerability_weight / 100) := mul_le_mul_of_nonneg_right h6 d3
      have t4 : hl * (w.health_vulnerability_weight / 100) ≤
          100 * (w.health_vulnerability_weight / 100) := mul_le_mul_of_nonneg_right h8 d4
      have e : (100:ℚ) * (w.household_composition_weight / 100) +
          100 * (w.economic_vulnerability_weight / 100) +
          100 * (w.social_vulnerability_weight / 100) +
          100 * (w.health_vulnerability_weight / 100) =
          w.household_composition_weight + w.economic_vulnerability_weight +
          w.social_vulnerability_weight + w.health_vulnerability_weight := by ring
      linarith
  · intro d h1 h2 h3 h4 h5 h6 h7 h8 h9 h10
    unfold FiveDim.calculateWeightedScore FiveDim.WEIGHTS_economic FiveDim.WEIGHTS_housing
      FiveDim.WEIGHTS_health FiveDim.WEIGHTS_education FiveDim.WEIGHTS_social
    norm_num
    constructor <;> linarith

/-- C1 witness: the default four-dimension profile (30+35+20+15 = 100) with
dimension scores 50/60/70/80, and the fixed five-dimension weights with
dimension scores 50/60/70/80/90, both give a global score in [0,100]. -/
theorem global_score_in_unit_range_witness :
    (0 ≤ FourDim.totalScoreOf FourDim.DEFAULT_WEIGHTING_PROFILE 50 60 70 80 ∧
      FourDim.totalScoreOf FourDim.DEFAULT_WEIGHTING_PROFILE 50 60 70 80 ≤ 100) ∧
    (0 ≤ FiveDim.calculateWeightedScore
        { economic := 50, housing := 60, health := 70, education := 80, social := 90 } ∧
      FiveDim.calculateWeightedScore
        { economic := 50, housing := 60, health := 70, education := 80, social := 90 } ≤ 100) :=
  ⟨global_score_in_unit_range.1 FourDim.DEFAULT_WEIGHTING_PROFILE 50 60 70 80
      (by norm_num [FourDim.DEFAULT_WEIGHTING_PROFILE])
      (by norm_num [FourDim.DEFAULT_WEIGHTING_PROFILE])
      (by norm_num [FourDim.DEFAULT_WEIGHTING_PROFILE])
      (by norm_num [FourDim.DEFAULT_WEIGHTING_PROFILE])
      (by norm_num [FourDim.DEFAULT_WEIGHTING_PROFILE])
      (by norm_num) (by norm_num) (by norm_num) (by norm_num) (by norm_num) (by norm_num)
      (by norm_num) (by norm_num),
   global_score_in_unit_range.2
      { economic := 50, housing := 60, health := 70, education := 80, social := 90 }
      (by norm_num) (by norm_num) (by norm_num) (by norm_num) (by norm_num) (by norm_num)
      (by norm_num) (by norm_num) (by norm_num) (by norm_num)⟩

/-- C2: risk classification is a deterministic, monotone step function of the
score; under the canonical thresholds (the four-dimension constants
CRITICAL 80 / HIGH 60 / MODERATE 40) a score of 79.9 maps to HIGH and 80.0
to CRITICAL, the boundary being inclusive on the upper tier; the
five-dimension variant is the same step function with its own thresholds
75/50/25. -/
theorem risk_level_step_function :
    FourDim._determineRiskLevel (79.9 : ℚ) = RiskLevel.HIGH ∧
    FourDim._determineRiskLevel 80 = RiskLevel.CRITICAL ∧
    (∀ s t : ℚ, s ≤ t →
      (FourDim._determineRiskLevel s).rank ≤ (FourDim._determineRiskLevel t).rank) ∧
    (∀ s : ℚ, FourDim._determineRiskLevel s =
      if 80 ≤ s then RiskLevel.CRITICAL
      else if 60 ≤ s then RiskLevel.HIGH
      else if 40 ≤ s then RiskLevel.MODERATE
      else RiskLevel.LOW) ∧
    (∀ s t : ℚ, s ≤ t →
      (FiveDim.determineRiskLevel s).rank ≤ (FiveDim.determineRiskLevel t).rank) ∧
    (∀ s : ℚ, FiveDim.determineRiskLevel s =
      if 75 ≤ s then RiskLevel.CRITICAL
      else if 50 ≤ s then RiskLevel.HIGH
      else if 25 ≤ s then RiskLevel.MODERATE
      else RiskLevel.LOW) := by
  refine ⟨?_, ?_, ?_, ?_, ?_, ?_⟩
  · norm_num [FourDim._determineRiskLevel, FourDim.RISK_THRESHOLDS_CRITICAL,
      FourDim.RISK_THRESHOLDS_HIGH, FourDim.RISK_THRESHOLDS_MODERATE]
  · norm_num [FourDim._determineRiskLevel, FourDim.RISK_THRESHOLDS_CRITICAL]
  · intro s t hst
    unfold FourDim._determineRiskLevel FourDim.RISK_THRESHOLDS_CRITICAL
      FourDim.RISK_THRESHOLDS_HIGH FourDim.RISK_THRESHOLDS_MODERATE
    split_ifs <;> first | decide | (exfalso; linarith)
  · intro s
    unfold FourDim._determineRiskLevel FourDim.RISK_THRESHOLDS_CRITICAL
      FourDim.RISK_THRESHOLDS_HIGH FourDim.RISK_THRESHOLDS_MODERATE
    rfl
  · intro s t hst
    unfold FiveDim.determineRiskLevel FiveDim.THRESHOLDS_CRITICAL
      FiveDim.THRESHOLDS_HIGH FiveDim.THRESHOLDS_MODERATE
    split_ifs <;> first | decide | (exfalso; linarith)
  · intro s
    unfold FiveDim.determineRiskLevel FiveDim.THRESHOLDS_CRITICAL
      FiveDim.THRESHOLDS_HIGH FiveDim.THRESHOLDS_MODERATE
    rfl

/-- C2 witness: monotonicity instantiated at 79.9 ≤ 80 (four-dimension) and
25 ≤ 60 (five-dimension). -/
theorem risk_level_step_function_witness :
    ((79.9 : ℚ) ≤ 80 ∧
      (FourDim._determineRiskLevel (79.9 : ℚ)).rank ≤ (FourDim._determineRiskLevel 80).rank) ∧
    ((25 : ℚ) ≤ 60 ∧
      (FiveDim.determineRiskLevel 25).rank ≤ (FiveDim.determineRiskLevel 60).rank) :=
  ⟨⟨by norm_num, risk_level_step_function.2.2.1 (79.9 : ℚ) 80 (by norm_num)⟩,
   ⟨by norm_num, risk_level_step_function.2.2.2.2.1 25 60 (by norm_num)⟩⟩

/-- C3: in the local scoring computation every returned numeric field equals
the two-decimal rounding of the corresponding exact (unrounded) value, and
the risk level is classified from the exact unrounded weighted total: all
intermediate dimension scores enter the weighted sum unrounded and rounding
happens only at the output boundary. -/
theorem local_score_rounds_only_at_boundary :
    ∀ (p : FourDim.PersonData) (h : Option FourDim.HouseholdData)
      (w : FourDim.WeightingProfile),
      (FourDim.calculateScoreLocally p h w).vulnerability_score =
          FourDim.round2 (FourDim.exactTotalScore p h w) ∧
      (FourDim.calculateScoreLocally p h w).risk_level =
          FourDim._determineRiskLevel (FourDim.exactTotalScore p h w) ∧
      (FourDim.calculateScoreLocally p h w).household_composition_score =
          FourDim.round2 (FourDim._calculateHouseholdCompositionScore h) ∧
      (FourDim.calculateScoreLocally p h w).economic_vulnerability_score =
          FourDim.round2 (FourDim._calculateEconomicVulnerabilityScore p h) ∧
      (FourDim.calculateScoreLocally p h w).social_vulnerability_score =
          FourDim.round2 (FourDim._calculateSocialVulnerabilityScore p) ∧
      (FourDim.calculateScoreLocally p h w).health_vulnerability_score =
          FourDim.round2 (FourDim._calculateHealthVulnerabilityScore p h) := by
  intro p h w
  exact ⟨rfl, rfl, rfl, rfl, rfl, rfl⟩

/-- C4: the local scoring computation is deterministic in its inputs: the
four-dimension variant is a pure function of person, household and profile
(its output has no timestamp field), and the five-dimension variant run at
two different wall-clock times yields outputs identical in every field
except `calculatedAt`. -/
theorem calculate_local_idempotent_up_to_timestamp :
    (∀ (p : FourDim.PersonData) (h : Option FourDim.HouseholdData)
        (w : FourDim.WeightingProfile),
      FourDim.calculateScoreLocally p h w = FourDim.calculateScoreLocally p h w) ∧
    (∀ (today : FiveDim.Date) (p : FiveDim.Person) (hh : FiveDim.Household) (t1 t2 : String),
      FiveDim.eraseCalculatedAt (FiveDim.calculateVulnerabilityScore today p hh t1) =
        FiveDim.eraseCalculatedAt (FiveDim.calculateVulnerabilityScore today p hh t2)) := by
  constructor
  · intro p h w
    rfl
  · intro today p hh t1 t2
    unfold FiveDim.calculateVulnerabilityScore FiveDim.eraseCalculatedAt
    cases FiveDim.calculateDimensionScores today p hh <;> rfl

/-- C5: `drain` never raises and implements partial-failure semantics: each
failed item stays with `attempts` incremented by exactly one and status
FAILED while the remaining items are still processed, succeeded items are
removed, and the summary counts succeeded, failed and processed items; in
particular a queue A, B, C where only B fails yields synced=2, failed=1,
total=3 with B remaining FAILED at attempts 1. -/
theorem drain_partial_failure_summary :
    (∀ (outcome : SyncQueue.QueueItem → Bool) (q : List SyncQueue.QueueItem),
      (SyncQueue.drain outcome q).2.total = q.length ∧
      (SyncQueue.drain outcome q).2.synced = (q.filter (fun i => outcome i)).length ∧
      (SyncQueue.drain outcome q).2.failed = (q.filter (fun i => !outcome i)).length ∧
      (SyncQueue.drain outcome q).1 =
        (q.filter (fun i => !outcome i)).map
          (fun i => { i with attempts := i.attempts + 1,
                             status := SyncQueue.Status.FAILED })) ∧
    SyncQueue.drain (fun i => i.id != 1)
        [{ id := 0, createdAt := 0, attempts := 0, status := SyncQueue.Status.PENDING },
         { id := 1, createdAt := 1, attempts := 0, status := SyncQueue.Status.PENDING },
         { id := 2, createdAt := 2, attempts := 0, status := SyncQueue.Status.PENDING }] =
      ([{ id := 1, createdAt := 1, attempts := 1, status := SyncQueue.Status.FAILED }],
       { synced := 2, failed := 1, total := 3 }) := by
  constructor
  · intro outcome q
    induction q with
    | nil => simp [SyncQueue.drain]
    | cons i rest ih =>
      by_cases hoc : outcome i <;>
        simp [SyncQueue.drain, hoc, List.filter_cons, ih.1, ih.2.1, ih.2.2.1, ih.2.2.2]
  · rfl

/-- C6 counterexample: with connectivity up and `syncing = true` (a drain
already in flight), a direct `syncQueue()` invocation still proceeds past
its early return and starts `processQueue` — the claimed guard-flag check
before starting a drain does not happen on this path. -/
theorem sync_queue_overlap_not_skipped :
    (UseOffline.HookState.mk true true true 1 true).syncing = true ∧
    UseOffline.syncQueueStarts (UseOffline.HookState.mk true true true 1 true) = true :=
  ⟨rfl, rfl⟩

/-- C6 (amended): only the automatic-sync effect checks the in-memory
`syncing` guard flag: an automatic drain trigger never fires while a drain
is in flight. A direct `syncQueue()` invocation checks connectivity only
and is not skipped while another drain is in progress. -/
theorem auto_sync_guarded_by_syncing_flag (s : UseOffline.HookState)
    (h : s.syncing = true) : UseOffline.autoSyncTriggers s = false := by
  unfold UseOffline.autoSyncTriggers
  simp [h]

/-- C6 witness: the amended guarantee at a concrete in-flight state. -/
theorem auto_sync_guarded_by_syncing_flag_witness :
    (UseOffline.HookState.mk true true true 1 true).syncing = true ∧
    UseOffline.autoSyncTriggers (UseOffline.HookState.mk true true true 1 true) = false :=
  ⟨rfl, auto_sync_guarded_by_syncing_flag (UseOffline.HookState.mk true true true 1 true) rfl⟩

/-- C7 counterexample: the five-dimension social dimension function does not
return a value for a person of computed age 75 — it raises the undefined
variable error — so it is not the case that every dimension function
returns a value in [0,100] on every input. -/
theorem dimension_score_no_return_counterexample :
    FiveDim.calculateSocialScore sampleToday samplePerson75 sampleHousehold =
      Except.error ("ReferenceError: householdSize is not defined") ∧
    ¬ ∃ q : ℚ, FiveDim.calculateSocialScore sampleToday samplePerson75 sampleHousehold =
      Except.ok q := by
  refine ⟨rfl, ?_⟩
  rintro ⟨q, hq⟩
  rw [show FiveDim.calculateSocialScore sampleToday samplePerson75 sampleHousehold =
      Except.error ("ReferenceError: householdSize is not defined") from rfl] at hq
  exact Except.noConfusion hq

/-- C7 (amended): every per-dimension scoring function of both variants is
built from additive nonnegative point contributions clamped by a minimum
with 100, so whenever it returns a value that value lies in [0,100] and is
never negative; the sole partial function is the five-dimension social
score, which fails to return (raises) exactly when the computed age is at
least 65 — on every input where it returns, its value is also in [0,100]. -/
theorem dimension_scores_bounded :
    (∀ (today : FiveDim.Date) (p : FiveDim.Person) (h : FiveDim.Household) (q : ℚ),
      FiveDim.calculateSocialScore today p h = Except.ok q → 0 ≤ q ∧ q ≤ 100) ∧
    (∀ h : Option FourDim.HouseholdData,
      0 ≤ FourDim._calculateHouseholdCompositionScore h ∧
        FourDim._calculateHouseholdCompositionScore h ≤ 100) ∧
    (∀ (p : FourDim.PersonData) (h : Option FourDim.HouseholdData),
      0 ≤ FourDim._calculateEconomicVulnerabilityScore p h ∧
        FourDim._calculateEconomicVulnerabilityScore p h ≤ 100) ∧
    (∀ p : FourDim.PersonData,
      0 ≤ FourDim._calculateSocialVulnerabilityScore p ∧
        FourDim._calculateSocialVulnerabilityScore p ≤ 100) ∧
    (∀ (p : FourDim.PersonData) (h : Option FourDim.HouseholdData),
      0 ≤ FourDim._calculateHealthVulnerabilityScore p h ∧
        FourDim._calculateHealthVulnerabilityScore p h ≤ 100) ∧
    (∀ (p : FiveDim.Person) (h : FiveDim.Household),
      0 ≤ FiveDim.calculateEconomicScore p h ∧ FiveDim.calculateEconomicScore p h ≤ 100) ∧
    (∀ h : FiveDim.Household,
      0 ≤ FiveDim.calculateHousingScore h ∧ FiveDim.calculateHousingScore h ≤ 100) ∧
    (∀ (p : FiveDim.Person) (h : FiveDim.Household),
      0 ≤ FiveDim.calculateHealthScore p h ∧ FiveDim.calculateHealthScore p h ≤ 100) ∧
    (∀ (p : FiveDim.Person) (h : FiveDim.Household),
      0 ≤ FiveDim.calculateEducationScore p h ∧ FiveDim.calculateEducationScore p h ≤ 100) := by
  refine ⟨?_, ?_, ?_, ?_, ?_, ?_, ?_, ?_, ?_⟩
  · intro today p h q hq
    simp only [FiveDim.calculateSocialScore] at hq
    rcases le_or_lt 65 (FiveDim.calculateAge today p.birthDate) with hage | hage
    · rw [if_pos hage] at hq
      exact Except.noConfusion hq
    · rw [if_neg (not_le.mpr hage)] at hq
      injection hq with hq
      subst hq
      refine min_left_mem _ ?_
      repeat' first
        | apply add_nonneg
        | apply ite_nonneg_q
      all_goals norm_num
  · intro h
    cases h with
    | none => norm_num [FourDim._calculateHouseholdCompositionScore]
    | some hh =>
      unfold FourDim._calculateHouseholdCompositionScore
      refine min_right_mem _ ?_
      repeat' first
        | apply add_nonneg
        | apply ite_nonneg_q
      all_goals norm_num
  · intro p h
    unfold FourDim._calculateEconomicVulnerabilityScore
    refine min_right_mem _ ?_
    repeat' first
      | apply add_nonneg
      | apply ite_nonneg_q
    all_goals norm_num
  · intro p
    unfold FourDim._calculateSocialVulnerabilityScore
    refine min_right_mem _ ?_
    repeat' first
      | apply add_nonneg
      | apply ite_nonneg_q
    all_goals norm_num
  · intro p h
    unfold FourDim._calculateHealthVulnerabilityScore
    refine min_right_mem _ ?_
    repeat' first
      | apply add_nonneg
      | apply ite_nonneg_q
    all_goals norm_num
  · intro p h
    unfold FiveDim.calculateEconomicScore
    refine min_left_mem _ ?_
    repeat' first
      | apply add_nonneg
      | apply ite_nonneg_q
    all_goals norm_num
  · intro h
    unfold FiveDim.calculateHousingScore
    refine min_left_mem _ ?_
    repeat' first
      | apply add_nonneg
      | apply ite_nonneg_q
    all_goals norm_num
  · intro p h
    unfold FiveDim.calculateHealthScore
    refine min_left_mem _ ?_
    repeat' first
      | apply add_nonneg
      | apply ite_nonneg_q
    all_goals norm_num
  · intro p h
    unfold FiveDim.calculateEducationScore
    refine min_left_mem _ ?_
    repeat' first
      | apply add_nonneg
      | apply ite_nonneg_q
    all_goals norm_num

/-- C7 witness: on a 30-year-old person the social dimension function does
return a value, 25, and that value is in [0,100]. -/
theorem dimension_scores_bounded_witness :
    FiveDim.calculateSocialScore sampleToday samplePerson30 sampleHousehold = Except.ok 25 ∧
    (0 ≤ (25:ℚ) ∧ (25:ℚ) ≤ 100) :=
  ⟨by simp [FiveDim.calculateSocialScore, FiveDim.calculateAge, sampleToday, samplePerson30,
      sampleHousehold]; norm_num,
   dimension_scores_bounded.1 sampleToday samplePerson30 sampleHousehold 25
     (by simp [FiveDim.calculateSocialScore, FiveDim.calculateAge, sampleToday, samplePerson30,
       sampleHousehold]; norm_num)⟩

/-- C8: `getWeightingProfile` never fails — for every cache state and remote
fetch outcome (success, response without data, or thrown error) it returns
a profile: the cached one if present, else the freshly fetched one, else
the hardcoded default. -/
theorem get_weighting_profile_never_fails :
    ∀ (cache : Option FourDim.WeightingProfile)
      (remote : Except Unit (Option FourDim.WeightingProfile)),
      (FourDim.getWeightingProfile cache remote).1 =
        match cache, remote with
        | some p, _ => p
        | none, Except.ok (some d) => d
        | none, Except.ok none => FourDim.DEFAULT_WEIGHTING_PROFILE
        | none, Except.error _ => FourDim.DEFAULT_WEIGHTING_PROFILE := by
  intro cache remote
  rcases cache with _ | p
  · rcases remote with e | d
    · rfl
    · rcases d with _ | d <;> rfl
  · rfl

/-- C9: when the remote scoring call fails, the operation returns the cached
assessment for that person marked `fromCache` when one exists, and
propagates the failure to the caller (a non-success result carrying the
error) when no cached assessment exists. -/
theorem remote_calculate_falls_back_to_cache :
    ∀ (e : String) (cache : Option FourDim.Assessment),
      (∀ a : FourDim.Assessment, cache = some a →
        (FourDim.calculateVulnerabilityScoreRemote (Except.error e) cache).1 =
          { success := true, assessment := some a, fromCache := true, error := none }) ∧
      (cache = none →
        (FourDim.calculateVulnerabilityScoreRemote (Except.error e) cache).1 =
          { success := false, assessment := none, fromCache := false, error := some e }) := by
  intro e cache
  constructor
  · intro a ha
    subst ha
    rfl
  · intro h
    subst h
    rfl

/-- C9 witness: both failure branches at a concrete error and cache entry. -/
theorem remote_calculate_falls_back_to_cache_witness :
    ((some (FourDim.Assessment.mk ("a1")) = some (FourDim.Assessment.mk ("a1"))) ∧
      (FourDim.calculateVulnerabilityScoreRemote (Except.error ("Network Error"))
          (some (FourDim.Assessment.mk ("a1")))).1 =
        { success := true, assessment := some (FourDim.Assessment.mk ("a1")),
          fromCache := true, error := none }) ∧
    (((none : Option FourDim.Assessment) = none) ∧
      (FourDim.calculateVulnerabilityScoreRemote (Except.error ("Network Error"))
          (none : Option FourDim.Assessment)).1 =
        { success := false, assessment := none, fromCache := false,
          error := some ("Network Error") }) :=
  ⟨⟨rfl, (remote_calculate_falls_back_to_cache ("Network Error")
      (some (FourDim.Assessment.mk ("a1")))).1 (FourDim.Assessment.mk ("a1")) rfl⟩,
   ⟨rfl, (remote_calculate_falls_back_to_cache ("Network Error")
      (none : Option FourDim.Assessment)).2 rfl⟩⟩

/-- C10: in the five-dimension variant, whenever the computed age is at least
65 the social dimension function evaluates the undefined `householdSize`
variable and raises, so the whole local computation fails with its catch
message for every such person; for computed age below 65 the social score
is total. -/
theorem elderly_social_score_reference_error :
    (∀ (today : FiveDim.Date) (p : FiveDim.Person) (h : FiveDim.Household) (t : String),
      65 ≤ FiveDim.calculateAge today p.birthDate →
      FiveDim.calculateSocialScore today p h =
          Except.error ("ReferenceError: householdSize is not defined") ∧
      FiveDim.calculateVulnerabilityScore today p h t =
          Except.error ("Impossible de calculer le score de vulnérabilité")) ∧
    (∀ (today : FiveDim.Date) (p : FiveDim.Person) (h : FiveDim.Household),
      FiveDim.calculateAge today p.birthDate < 65 →
      ∃ q : ℚ, FiveDim.calculateSocialScore today p h = Except.ok q) := by
  constructor
  · intro today p h t hage
    have hsoc : FiveDim.calculateSocialScore today p h =
        Except.error ("ReferenceError: householdSize is not defined") := by
      simp only [FiveDim.calculateSocialScore]
      rw [if_pos hage]
    have hdim : FiveDim.calculateDimensionScores today p h =
        Except.error ("ReferenceError: householdSize is not defined") := by
      unfold FiveDim.calculateDimensionScores
      rw [hsoc]
    refine ⟨hsoc, ?_⟩
    unfold FiveDim.calculateVulnerabilityScore
    rw [hdim]
  · intro today p h hage
    simp only [FiveDim.calculateSocialScore]
    rw [if_neg (not_le.mpr hage)]
    exact ⟨_, rfl⟩

/-- C10 witness: a person of computed age 75 makes both the social score and
the full local computation raise, while a person of computed age 30 gets a
social score. -/
theorem elderly_social_score_reference_error_witness :
    (65 ≤ FiveDim.calculateAge sampleToday samplePerson75.birthDate ∧
      FiveDim.calculateSocialScore sampleToday samplePerson75 sampleHousehold =
        Except.error ("ReferenceError: householdSize is not defined") ∧
      FiveDim.calculateVulnerabilityScore sampleToday samplePerson75 sampleHousehold
          ("2025-06-15T00:00:00.000Z") =
        Except.error ("Impossible de calculer le score de vulnérabilité")) ∧
    (FiveDim.calculateAge sampleToday samplePerson30.birthDate < 65 ∧
      ∃ q : ℚ, FiveDim.calculateSocialScore sampleToday samplePerson30 sampleHousehold =
        Except.ok q) :=
  ⟨⟨by decide, elderly_social_score_reference_error.1 sampleToday samplePerson75
      sampleHousehold ("2025-06-15T00:00:00.000Z") (by decide)⟩,
   ⟨by decide, elderly_social_score_reference_error.2 sampleToday samplePerson30
      sampleHousehold (by decide)⟩⟩

end RSU
